import Mathlib

/-!
Verification development for `lint_po_args`, a linter for PO translation
catalogs.  The program has three parts, embedded below from
`lint_po_args.py`:

* an escape decoder `unescape` for the catalog's quoted-string literals,
* a stateful parser `parse_po_data` turning raw text into `Translation`
  entries,
* a token linter `lint_translations` comparing command-line-flag tokens
  and printf-style tokens between `msgid` and `msgstr`.

Python assertion failures are modelled by the `Except` monad: each
`assert` in the source becomes an explicit error constructor.  Assertion
messages of the form `"line %d: ..."` are modelled by `ParseError.atLine`
carrying the interpolated line number; `assert`s written without a message
(the mypy-helper ones and the end-of-input `assert line_first is not None`)
become dedicated message-free constructors, since they report no line
number.  The regex `findall` calls are embedded as explicit left-to-right,
maximal-munch, non-overlapping scanners over the character list.
-/

deriving instance DecidableEq for Except

/-- Character class of `RE_CMDLINE_OPTION`, i.e. `[0-9a-zA-Z_-]`
(`Char.isAlphanum` is exactly ASCII `[0-9a-zA-Z]`). -/
def isOptChar (c : Char) : Bool :=
  c.isAlphanum || c == '_' || c == '-'

/-- Character class of `RE_PRINTFISH`, i.e. `[0-9a-zA-Z+-]`. -/
def isPrintfChar (c : Char) : Bool :=
  c.isAlphanum || c == '+' || c == '-'

/-- Emit a completed token (lead character plus the collected run, which the
scanner holds in reverse) in front of `toks`; an empty run means the lead
character was not followed by any class character, so the `+` of the regex
did not match and no token is emitted. -/
def finishTok (lead : Char) (acc : List Char) (toks : List String) : List String :=
  if acc.isEmpty then toks else String.mk (lead :: acc.reverse) :: toks

/-- Scanner for `RE_CMDLINE_OPTION.findall`, pattern
`(?<![0-9a-zA-Z_-])-[0-9a-zA-Z_-]+`.  `prevWord` tracks whether the
previously scanned character is in the class `[0-9a-zA-Z_-]` (the negative
lookbehind); `acc` is `some run` while inside a candidate match that started
at a `-`.  Matching is left-to-right, maximal and non-overlapping, exactly
like `re.findall`. -/
def scanOpts : Bool → Option (List Char) → List Char → List String
  | _, none, [] => []
  | _, some acc, [] => finishTok '-' acc []
  | prevWord, none, c :: rest =>
    if c == '-' && !prevWord then scanOpts true (some []) rest
    else scanOpts (isOptChar c) none rest
  | _, some acc, c :: rest =>
    if isOptChar c then scanOpts true (some (c :: acc)) rest
    else finishTok '-' acc (scanOpts (isOptChar c) none rest)

/-- Scanner for `RE_PRINTFISH.findall`, pattern `%[0-9a-zA-Z+-]+`.
No lookbehind here; a `%` can directly follow a finished token. -/
def scanPct : Option (List Char) → List Char → List String
  | none, [] => []
  | some acc, [] => finishTok '%' acc []
  | none, c :: rest =>
    if c == '%' then scanPct (some []) rest else scanPct none rest
  | some acc, c :: rest =>
    if isPrintfChar c then scanPct (some (c :: acc)) rest
    else finishTok '%' acc (if c == '%' then scanPct (some []) rest else scanPct none rest)

/-- `RE_CMDLINE_OPTION.findall(s)`. -/
def RE_CMDLINE_OPTION_findall (s : String) : List String :=
  scanOpts false none s.data

/-- `RE_PRINTFISH.findall(s)`. -/
def RE_PRINTFISH_findall (s : String) : List String :=
  scanPct none s.data

/-- `ESCAPE_DICT`: the four defined escapes.  The Python dict maps to
one-character strings; we map to the character. -/
def ESCAPE_DICT (c : Char) : Option Char :=
  if c == 't' then some '\t'
  else if c == 'n' then some '\n'
  else if c == '\\' then some '\\'
  else if c == '"' then some '"'
  else none

/-- The `AssertionError`s `unescape` can raise, one constructor per
`assert` statement (in source order). -/
inductive DecodeError where
  /-- line 45: unknown escape sequence. -/
  | unknownEscape (c : Char)
  /-- line 51: char not inside doublequotes. -/
  | notInsideQuotes (c : Char)
  /-- line 56: escaped string is not properly terminated. -/
  | notTerminated
  /-- line 57: unfinished escape sequence (checked after `notTerminated`). -/
  | unfinishedEscape
deriving DecidableEq, Repr

/-- The character loop of `unescape`: `acc` holds the emitted characters in
reverse (modelling the `parts` list that is joined at the end). -/
def unescapeAux (is_quoted is_escaping : Bool) (acc : List Char) :
    List Char → Except DecodeError (List Char)
  | [] =>
    if is_quoted then .error .notTerminated
    else if is_escaping then .error .unfinishedEscape
    else .ok acc.reverse
  | c :: rest =>
    if is_escaping then
      match ESCAPE_DICT c with
      | some r => unescapeAux is_quoted false (r :: acc) rest
      | none => .error (.unknownEscape c)
    else if c == '"' then unescapeAux (!is_quoted) false acc rest
    else if !is_quoted then .error (.notInsideQuotes c)
    else if c == '\\' then unescapeAux is_quoted true acc rest
    else unescapeAux is_quoted false (c :: acc) rest

/-- `unescape` on a character list. -/
def unescapeChars (line : List Char) : Except DecodeError String :=
  (unescapeAux false false [] line).map fun cs => String.mk cs

/-- `unescape(line)`: decode one physical line of one-or-more double-quoted
segments into the unescaped content. -/
def unescape (line : String) : Except DecodeError String :=
  unescapeChars line.data

/-- The namedtuple `Translation(msgid, msgstr, line_first)`.  `line_first`
is `Option Nat` because the Python value fed into the constructor is the
parser's `Optional[int]` variable. -/
structure Translation where
  msgid : String
  msgstr : String
  line_first : Option Nat
deriving DecidableEq, Repr

/-- The payload of an `Issue.reason` string.  The Python code stores the
formatted f-string; the constructor keeps the same information (which token
class mismatched, and both extracted sequences verbatim).
`Reason.render` below produces the exact Python text. -/
inductive Reason where
  | cmdlineMismatch (inMsgid inMsgstr : List String)
  | printfMismatch (inMsgid inMsgstr : List String)
deriving DecidableEq, Repr

/-- Python `repr` of a list of strings, as interpolated by the f-strings in
`lint_translations`.  The extracted tokens consist of characters from
`[0-9a-zA-Z_%+-]` only, so `repr` never needs quote-escaping and always
picks single quotes (written `\x27` here). -/
def reprStringList (xs : List String) : String :=
  "[" ++ String.intercalate (", ") (xs.map fun s => "\x27" ++ s ++ "\x27") ++ "]"

/-- Render a `Reason` to the exact `Issue.reason` string built in
`lint_translations`. -/
def Reason.render : Reason → String
  | .cmdlineMismatch a b =>
    "mismatching mentions of command-line options: >>" ++ reprStringList a ++
      "<< (in msgid) versus >>" ++ reprStringList b ++ "<< (in msgstr)"
  | .printfMismatch a b =>
    "mismatching printf instructions: >>" ++ reprStringList a ++
      "<< (in msgid) versus >>" ++ reprStringList b ++ "<< (in msgstr)"

/-- The namedtuple `Issue(translation, reason)`. -/
structure Issue where
  translation : Translation
  reason : Reason
deriving DecidableEq, Repr

/-- Whether an issue is a command-line-flag mismatch. -/
def Issue.isCmdline (i : Issue) : Bool :=
  match i.reason with
  | .cmdlineMismatch _ _ => true
  | .printfMismatch _ _ => false

/-- Whether an issue is a printf-token mismatch. -/
def Issue.isPrintf (i : Issue) : Bool :=
  match i.reason with
  | .cmdlineMismatch _ _ => false
  | .printfMismatch _ _ => true

/-- One iteration of the loop body of `lint_translations` for entry `t`. -/
def lintOne (lint_printf : Bool) (t : Translation) : List Issue :=
  if t.msgstr = "" then []
  else
    let cmdline_msgid := RE_CMDLINE_OPTION_findall t.msgid
    let cmdline_msgstr := RE_CMDLINE_OPTION_findall t.msgstr
    let printf_msgid := if lint_printf then RE_PRINTFISH_findall t.msgid else []
    let printf_msgstr := if lint_printf then RE_PRINTFISH_findall t.msgstr else []
    (if cmdline_msgid ≠ cmdline_msgstr
      then [⟨t, Reason.cmdlineMismatch cmdline_msgid cmdline_msgstr⟩] else []) ++
    (if printf_msgid ≠ printf_msgstr
      then [⟨t, Reason.printfMismatch printf_msgid printf_msgstr⟩] else [])

/-- `lint_translations(translations, lint_printf)`. -/
def lint_translations : List Translation → Bool → List Issue
  | [], _ => []
  | t :: ts, lint_printf => lintOne lint_printf t ++ lint_translations ts lint_printf

/-- The `AssertionError`s `parse_po_data` can raise.  `atLine n msg` models
an assertion whose message interpolates the offending line number `n`
(1-based, `i + 1` in the source); the message-free constructors model the
`assert`s written without any message, which therefore report no line
number; `decode` models an `AssertionError` propagating out of the
`unescape` call (whose messages never contain a line number). -/
inductive ParseError where
  /-- an assert whose message names line `n`. -/
  | atLine (n : Nat) (msg : String)
  /-- propagated from `unescape` (line 103). -/
  | decode (e : DecodeError)
  /-- line 99: bare `assert line_first is not None` in the msgstr branch. -/
  | assertLineFirstMsgstr
  /-- line 105: bare `assert msgid_parts is not None` before appending. -/
  | assertMsgidSome
  /-- line 87: bare `assert msgstr_parts is not None` when closing an entry. -/
  | assertMsgstrSomeNew
  /-- line 112: bare `assert msgstr_parts is not None` at end of input. -/
  | assertMsgstrSomeEof
  /-- line 109: bare `assert line_first is not None` at end of input. -/
  | assertLineFirstEof
deriving DecidableEq, Repr

/-- Whether the error message identifies a line number. -/
def ParseError.hasLineNo : ParseError → Bool
  | .atLine _ _ => true
  | _ => false

/-- Whether the error came out of the escape decoder. -/
def ParseError.isDecode : ParseError → Bool
  | .decode _ => true
  | _ => false

/-- The parser's transient state: the three `Optional` variables of
`parse_po_data` plus the `translations` output list being built. -/
structure PState where
  line_first : Option Nat
  msgid_parts : Option (List String)
  msgstr_parts : Option (List String)
  translations : List Translation
deriving DecidableEq, Repr

/-- Initial parser state (all three variables `None`, empty output). -/
def PState.init : PState :=
  ⟨none, none, none, []⟩

/-- The state invariant of claim C8: the translation accumulator is present
only if the source accumulator is, and the first-line number is present
exactly when the source accumulator is. -/
def PState.inv (st : PState) : Prop :=
  st.line_first.isSome = st.msgid_parts.isSome ∧
    (st.msgstr_parts.isSome = true → st.msgid_parts.isSome = true)

instance (st : PState) : Decidable st.inv := by
  unfold PState.inv; infer_instance

/-- Python `raw_data.split("\n")` on the character level: split on every
newline, always returning at least one (possibly empty) piece. -/
def splitNl : List Char → List (List Char)
  | [] => [[]]
  | c :: rest =>
    if c == '\n' then [] :: splitNl rest
    else
      match splitNl rest with
      | l :: ls => (c :: l) :: ls
      | [] => [[c]]

/-- Python `line.startswith(pat)`. -/
def startsWithChars : List Char → List Char → Bool
  | _, [] => true
  | [], _ :: _ => false
  | c :: cs, p :: ps => c == p && startsWithChars cs ps

/-- The literal `"msgid "`. -/
def msgidKw : List Char :=
  String.data ("msgid ")

/-- The literal `"msgstr "`. -/
def msgstrKw : List Char :=
  String.data ("msgstr ")

/-- Open a new entry (source lines 93-97): record `first_line = i + 1`,
reset the accumulators, strip the `msgid ` keyword, and require the
remainder to start with a double quote. -/
def poNewEntry (i : Nat) (line : List Char) (st : PState) :
    Except ParseError (PState × List Char) :=
  if startsWithChars (line.drop msgidKw.length) ['"'] then
    .ok (⟨some (i + 1), some [], none, st.translations⟩, line.drop msgidKw.length)
  else
    .error (.atLine (i + 1) ("msgid does not directly continue with string"))

/-- The `msgid ` branch (source lines 84-97): close and append the previous
entry if one is open, then open a new one.  If the line does not start with
the keyword, state and line pass through unchanged. -/
def poStartMsgid (i : Nat) (line : List Char) (st : PState) :
    Except ParseError (PState × List Char) :=
  if startsWithChars line msgidKw then
    if st.msgid_parts.isNone != st.msgstr_parts.isNone then
      .error (.atLine (i + 1) ("start of new translation, but previous is not complete"))
    else
      match st.msgid_parts, st.msgstr_parts with
      | some ids, some strs =>
        poNewEntry i line
          { st with translations :=
              st.translations ++ [⟨String.join ids, String.join strs, st.line_first⟩] }
      | some _, none => .error .assertMsgstrSomeNew
      | none, _ => poNewEntry i line st
  else
    .ok (st, line)

/-- The `msgstr ` branch (source lines 98-102): start the translation
accumulator and strip the keyword.  If the line does not start with the
keyword, state and line pass through unchanged. -/
def poStartMsgstr (i : Nat) (line : List Char) (st : PState) :
    Except ParseError (PState × List Char) :=
  if startsWithChars line msgstrKw then
    match st.line_first with
    | none => .error .assertLineFirstMsgstr
    | some _ =>
      match st.msgid_parts, st.msgstr_parts with
      | some _, none =>
        .ok ({ st with msgstr_parts := some [] }, line.drop msgstrKw.length)
      | _, _ => .error (.atLine (i + 1) ("start of msgstr, but inconsistent state"))
  else
    .ok (st, line)

/-- Append the decoded line to the active accumulator (source lines
104-108): the translation accumulator if it exists, else the source one. -/
def poAppend (st : PState) (u : String) : Except ParseError PState :=
  match st.msgstr_parts with
  | some strs => .ok { st with msgstr_parts := some (strs ++ [u]) }
  | none =>
    match st.msgid_parts with
    | some ids => .ok { st with msgid_parts := some (ids ++ [u]) }
    | none => .error .assertMsgidSome

/-- One iteration of the parser loop for 0-based line index `i` (source
lines 78-108).  Note the quirky `% (i + 1 - 1)` in the line-78 message: it
names line `i`, not `i + 1`. -/
def poLine (i : Nat) (line : List Char) (st : PState) : Except ParseError PState :=
  if st.line_first.isNone != st.msgid_parts.isNone then
    .error (.atLine i ("inconsistent parser state"))
  else if line.isEmpty || startsWithChars line ['#'] then
    .ok st
  else if st.msgid_parts.isNone && !startsWithChars line msgidKw then
    .error (.atLine (i + 1) ("expected beginning of msgid"))
  else
    match poStartMsgid i line st with
    | .error e => .error e
    | .ok (st1, line1) =>
      match poStartMsgstr i line1 st1 with
      | .error e => .error e
      | .ok (st2, line2) =>
        match unescapeChars line2 with
        | .error de => .error (.decode de)
        | .ok u => poAppend st2 u

/-- Run the parser loop over the remaining lines, `i` being the 0-based
index of the first of them. -/
def runLines (i : Nat) (st : PState) : List (List Char) → Except ParseError PState
  | [] => .ok st
  | l :: ls =>
    match poLine i l st with
    | .error e => .error e
    | .ok st' => runLines (i + 1) st' ls

/-- End-of-input handling (source lines 109-117); `n` is the number of
physical lines, which equals the Python `i + 1` of the last iteration
(`split` always yields at least one line). -/
def poEof (n : Nat) (st : PState) : Except ParseError (List Translation) :=
  match st.line_first with
  | none => .error .assertLineFirstEof
  | some _ =>
    if st.msgid_parts.isNone != st.msgstr_parts.isNone then
      .error (.atLine n ("end of file, but translation is not complete"))
    else
      match st.msgid_parts, st.msgstr_parts with
      | some ids, some strs =>
        .ok (st.translations ++ [⟨String.join ids, String.join strs, st.line_first⟩])
      | some _, none => .error .assertMsgstrSomeEof
      | none, _ => .ok st.translations

/-- `parse_po_data(raw_data)`. -/
def parse_po_data (raw_data : String) : Except ParseError (List Translation) :=
  match runLines 0 PState.init (splitNl raw_data.data) with
  | .error e => .error e
  | .ok st => poEof (splitNl raw_data.data).length st

/-- Modelled from the spec (§8): the escaping procedure of the round-trip
property, per character — backslash, double quote, tab and newline become
their two-character escapes, everything else passes through. -/
def escapeChar (c : Char) : List Char :=
  if c == '\\' then ['\\', '\\']
  else if c == '"' then ['\\', '"']
  else if c == '\t' then ['\\', 't']
  else if c == '\n' then ['\\', 'n']
  else [c]

/-- Modelled from the spec (§8): escape every character of a string. -/
def escapeChars : List Char → List Char
  | [] => []
  | c :: cs => escapeChar c ++ escapeChars cs

/-- Modelled from the spec (§8): produce the quoted literal for a string
(quote-wrap the escaped characters). -/
def escapeLiteral (s : String) : String :=
  String.mk ('"' :: (escapeChars s.data ++ ['"']))

/-- Modelled from the spec (§4.3 contract): the expected flag-mismatch
issues — one per entry whose translation is non-empty and whose two
extracted flag-token sequences differ as ordered sequences, naming both
sequences. -/
def specFlagIssues : List Translation → List Issue
  | [] => []
  | t :: ts =>
    (if t.msgstr ≠ "" ∧
        RE_CMDLINE_OPTION_findall t.msgid ≠ RE_CMDLINE_OPTION_findall t.msgstr
      then [⟨t, Reason.cmdlineMismatch (RE_CMDLINE_OPTION_findall t.msgid)
              (RE_CMDLINE_OPTION_findall t.msgstr)⟩]
      else []) ++ specFlagIssues ts

/-- Modelled from the spec (§4.3 contract): the expected format-token
issues — none at all when the switch is off, else one per entry whose
translation is non-empty and whose two extracted format-token sequences
differ as ordered sequences. -/
def specFormatIssues (lint_printf : Bool) : List Translation → List Issue
  | [] => []
  | t :: ts =>
    (if t.msgstr ≠ "" ∧ lint_printf = true ∧
        RE_PRINTFISH_findall t.msgid ≠ RE_PRINTFISH_findall t.msgstr
      then [⟨t, Reason.printfMismatch (RE_PRINTFISH_findall t.msgid)
              (RE_PRINTFISH_findall t.msgstr)⟩]
      else []) ++ specFormatIssues lint_printf ts

/-- The in-line unit test of the source, line 22. -/
theorem re_printfish_inline_test :
    RE_PRINTFISH_findall ("-foo bar --baz and %quux the -4") = ["%quux"] := by
  decide

/-- The in-line unit test of the source, line 23. -/
theorem re_cmdline_inline_test :
    RE_CMDLINE_OPTION_findall ("-foo bar --baz and %quux the -4") =
      ["-foo", "--baz", "-4"] := by
  decide

/-- The in-line unit tests of the source, lines 62-67. -/
theorem unescape_inline_tests :
    unescape ("\"\"") = .ok ("") ∧
    unescape ("\"asdf\"") = .ok ("asdf") ∧
    unescape ("\"foo\"\"bar\"") = .ok ("foobar") ∧
    unescape ("\"Hello\\nWorld\"") = .ok ("Hello\nWorld") ∧
    unescape ("\"Hello\\\"World\"") = .ok ("Hello\"World") ∧
    unescape ("\"fan\\\\cy\"") = .ok ("fan\\cy") := by
  decide

theorem filter_cmdline_lintOne (lint_printf : Bool) (t : Translation) :
    (lintOne lint_printf t).filter Issue.isCmdline =
      (if t.msgstr ≠ "" ∧
          RE_CMDLINE_OPTION_findall t.msgid ≠ RE_CMDLINE_OPTION_findall t.msgstr
        then [⟨t, Reason.cmdlineMismatch (RE_CMDLINE_OPTION_findall t.msgid)
                (RE_CMDLINE_OPTION_findall t.msgstr)⟩]
        else []) := by
  unfold lintOne
  by_cases h1 : t.msgstr = ""
  · simp [h1]
  · by_cases h2 : RE_CMDLINE_OPTION_findall t.msgid = RE_CMDLINE_OPTION_findall t.msgstr
    · simp [h1, h2, Issue.isCmdline, List.filter_append]
    · simp [h1, h2, Issue.isCmdline, List.filter_append]

theorem filter_printf_lintOne (lint_printf : Bool) (t : Translation) :
    (lintOne lint_printf t).filter Issue.isPrintf =
      (if t.msgstr ≠ "" ∧ lint_printf = true ∧
          RE_PRINTFISH_findall t.msgid ≠ RE_PRINTFISH_findall t.msgstr
        then [⟨t, Reason.printfMismatch (RE_PRINTFISH_findall t.msgid)
                (RE_PRINTFISH_findall t.msgstr)⟩]
        else []) := by
  unfold lintOne
  by_cases h1 : t.msgstr = ""
  · simp [h1]
  · cases lint_printf with
    | false => simp [h1, Issue.isPrintf, List.filter_append]
    | true =>
      by_cases h2 : RE_PRINTFISH_findall t.msgid = RE_PRINTFISH_findall t.msgstr
      · simp [h1, h2, Issue.isPrintf, List.filter_append]
      · simp [h1, h2, Issue.isPrintf, List.filter_append]

/-- Claim C1: for every entry whose translated text is non-empty, the linter
extracts the ordered flag-token sequences from source and translation and
emits exactly one flag-mismatch issue naming both sequences if and only if
the two sequences differ as ordered sequences; in particular source
`-0 option` versus translation `-O Option` yields one issue citing `-0`
versus `-O`. -/
theorem claim_C1 :
    (∀ (ts : List Translation) (lint_printf : Bool),
      (lint_translations ts lint_printf).filter Issue.isCmdline = specFlagIssues ts) ∧
    lint_translations [⟨"-0 option", "-O Option", some 1⟩] false =
      [⟨⟨"-0 option", "-O Option", some 1⟩, Reason.cmdlineMismatch ["-0"] ["-O"]⟩] ∧
    (Reason.cmdlineMismatch ["-0"] ["-O"]).render =
      "mismatching mentions of command-line options: >>[\x27-0\x27]<< (in msgid) versus >>[\x27-O\x27]<< (in msgstr)" := by
  refine ⟨fun ts lint_printf => ?_, by decide, by decide⟩
  induction ts with
  | nil => rfl
  | cons t ts ih =>
    simp only [lint_translations, specFlagIssues, List.filter_append, ih,
      filter_cmdline_lintOne]

/-- Claim C2: parsing the two-line input `msgid "-0 option"` /
`msgstr "-O Option"` yields exactly one entry with source text
`-0 option`, translated text `-O Option` and first line 1. -/
theorem claim_C2 :
    parse_po_data ("msgid \"-0 option\"\nmsgstr \"-O Option\"") =
      .ok [⟨"-0 option", "-O Option", some 1⟩] := by
  decide

/-- Claim C4: the parser fails with a fatal format error on a file whose
first non-comment, non-blank line starts with `msgstr`, on a file with two
`msgid` lines and no intervening `msgstr`, and on a file ending right after
a `msgid` line; in each case no entry list is returned. -/
theorem claim_C4 :
    parse_po_data ("msgstr \"x\"") =
      .error (.atLine 1 ("expected beginning of msgid")) ∧
    parse_po_data ("# c\n\nmsgstr \"x\"") =
      .error (.atLine 3 ("expected beginning of msgid")) ∧
    parse_po_data ("msgid \"a\"\nmsgid \"b\"") =
      .error (.atLine 2 ("start of new translation, but previous is not complete")) ∧
    parse_po_data ("msgid \"a\"") =
      .error (.atLine 1 ("end of file, but translation is not complete")) := by
  decide

/-- Claim C5: the escape decoder raises on `"abc` (still inside quotes at
end of line), on `"a\xb"` (unknown escape character `x`), on `abc`
(content outside quotes), and when the line ends while an escape is still
in progress (here the quote-termination check fires first, so the reported
error is `notTerminated`). -/
theorem claim_C5 :
    unescape ("\"abc") = .error .notTerminated ∧
    unescape ("\"a\\xb\"") = .error (.unknownEscape 'x') ∧
    unescape ("abc") = .error (.notInsideQuotes 'a') ∧
    unescape ("\"a\\") = .error .notTerminated := by
  decide

/-- Claim C6: an entry whose translated text is empty produces no issue at
all, regardless of any token mismatch and of the format-linting switch. -/
theorem claim_C6 (t : Translation) (ts : List Translation) (lint_printf : Bool)
    (h : t.msgstr = "") :
    lint_translations (t :: ts) lint_printf = lint_translations ts lint_printf := by
  simp [lint_translations, lintOne, h]

theorem claim_C6_witness :
    lint_translations [⟨"-0 option", "", some 1⟩] true = lint_translations [] true :=
  claim_C6 ⟨"-0 option", "", some 1⟩ [] true rfl

/-- Claim C7: when format-token linting is disabled the linter never emits
a format-token issue; when enabled, format tokens are extracted from source
and translation and compared as ordered sequences — `%s failed` versus
`%s fehlgeschlagen` yields no issue, while a translation using `%d`
instead yields one format-mismatch issue. -/
theorem claim_C7 :
    (∀ ts : List Translation, (lint_translations ts false).filter Issue.isPrintf = []) ∧
    (∀ (ts : List Translation) (lint_printf : Bool),
      (lint_translations ts lint_printf).filter Issue.isPrintf =
        specFormatIssues lint_printf ts) ∧
    lint_translations [⟨"%s failed", "%s fehlgeschlagen", some 1⟩] true = [] ∧
    lint_translations [⟨"%s failed", "%d fehlgeschlagen", some 1⟩] true =
      [⟨⟨"%s failed", "%d fehlgeschlagen", some 1⟩,
        Reason.printfMismatch ["%s"] ["%d"]⟩] := by
  have key : ∀ (ts : List Translation) (lint_printf : Bool),
      (lint_translations ts lint_printf).filter Issue.isPrintf =
        specFormatIssues lint_printf ts := by
    intro ts lint_printf
    induction ts with
    | nil => rfl
    | cons t ts ih =>
      simp only [lint_translations, specFormatIssues, List.filter_append, ih,
        filter_printf_lintOne]
  have off : ∀ ts : List Translation, specFormatIssues false ts = [] := by
    intro ts
    induction ts with
    | nil => rfl
    | cons t ts ih => simp [specFormatIssues, ih]
  exact ⟨fun ts => by rw [key, off], key, by decide, by decide⟩

/-- Claim C10: the escape decoder accepts a line with zero quoted segments
(the empty string decodes to the empty string), so a catalog line
consisting of exactly `msgstr ` with nothing after it is accepted and
contributes an empty translation segment rather than a fatal error. -/
theorem claim_C10 :
    unescape ("") = .ok ("") ∧
    parse_po_data ("msgid \"a\"\nmsgstr ") = .ok [⟨"a", "", some 1⟩] := by
  decide

theorem unescapeAux_escapeChars (cs : List Char) :
    ∀ acc : List Char,
      unescapeAux true false acc (escapeChars cs ++ ['"']) = .ok (acc.reverse ++ cs) := by
  induction cs with
  | nil => intro acc; simp [escapeChars, unescapeAux]
  | cons c cs ih =>
    intro acc
    by_cases h1 : c = '\\'
    · subst h1
      show unescapeAux true false ('\\' :: acc) (escapeChars cs ++ ['"']) = _
      rw [ih]; simp
    · by_cases h2 : c = '"'
      · subst h2
        show unescapeAux true false ('"' :: acc) (escapeChars cs ++ ['"']) = _
        rw [ih]; simp
      · by_cases h3 : c = '\t'
        · subst h3
          show unescapeAux true false ('\t' :: acc) (escapeChars cs ++ ['"']) = _
          rw [ih]; simp
        · by_cases h4 : c = '\n'
          · subst h4
            show unescapeAux true false ('\n' :: acc) (escapeChars cs ++ ['"']) = _
            rw [ih]; simp
          · have e1 : (c == '\\') = false := by simp [h1]
            have e2 : (c == '"') = false := by simp [h2]
            have e3 : (c == '\t') = false := by simp [h3]
            have e4 : (c == '\n') = false := by simp [h4]
            simp only [escapeChars, escapeChar, e1, e2, e3, e4, if_false,
              Bool.false_eq_true, List.cons_append, List.nil_append]
            rw [show unescapeAux true false acc
                (c :: (escapeChars cs ++ ['"'])) =
                if (c == '"') = true then unescapeAux (!true) false acc (escapeChars cs ++ ['"'])
                else if (!true) = true then .error (.notInsideQuotes c)
                else if (c == '\\') = true then unescapeAux true true acc (escapeChars cs ++ ['"'])
                else unescapeAux true false (c :: acc) (escapeChars cs ++ ['"']) from rfl]
            simp only [e1, e2, Bool.false_eq_true, if_false, Bool.not_true]
            rw [ih]; simp

/-- Claim C3: escape-decoder round trip — decoding the literal produced by
escaping a string (quote-wrap after escaping backslash, double quote, tab
and newline) returns the original string exactly.  Proved for every
string, which covers in particular the strings composed only of characters
with defined escapes. -/
theorem claim_C3 (s : String) : unescape (escapeLiteral s) = .ok s := by
  show (unescapeAux true false [] (escapeChars s.data ++ ['"'])).map
      (fun cs => String.mk cs) = .ok s
  rw [unescapeAux_escapeChars]
  rfl
theorem poStartMsgid_error (i : Nat) (line : List Char) (st : PState) (e : ParseError)
    (h : poStartMsgid i line st = .error e) : e.hasLineNo = true := by
  unfold poStartMsgid poNewEntry at h
  split at h
  · split at h
    · cases h; rfl
    · split at h
      · split at h
        · cases h
        · cases h; rfl
      · simp_all
      · split at h
        · cases h
        · cases h; rfl
  · cases h

theorem poStartMsgid_ok (i : Nat) (line : List Char) (st st1 : PState) (line1 : List Char)
    (h : poStartMsgid i line st = .ok (st1, line1)) :
    (st1 = st ∧ line1 = line ∧ startsWithChars line msgidKw = false) ∨
      (st1.line_first = some (i + 1) ∧ st1.msgid_parts = some [] ∧
        st1.msgstr_parts = none) := by
  unfold poStartMsgid poNewEntry at h
  split at h
  next hs =>
    split at h
    · cases h
    · split at h
      · split at h
        · cases h; right; exact ⟨rfl, rfl, rfl⟩
        · cases h
      · cases h
      · split at h
        · cases h; right; exact ⟨rfl, rfl, rfl⟩
        · cases h
  next hs =>
    cases h; left; exact ⟨rfl, rfl, by simpa using hs⟩

theorem poStartMsgstr_error (i : Nat) (line : List Char) (st : PState) (e : ParseError)
    (hlf : st.line_first.isSome = true)
    (h : poStartMsgstr i line st = .error e) : e.hasLineNo = true := by
  unfold poStartMsgstr at h
  split at h
  · split at h
    · simp_all
    · split at h
      · cases h
      · cases h; rfl
  · cases h

theorem poStartMsgstr_ok (i : Nat) (line : List Char) (st st1 : PState) (line1 : List Char)
    (h : poStartMsgstr i line st = .ok (st1, line1)) :
    st1 = st ∨
      (st1 = { st with msgstr_parts := some [] } ∧ st.msgid_parts.isSome = true) := by
  unfold poStartMsgstr at h
  split at h
  · split at h
    · cases h
    · split at h
      next hm _ =>
        cases h; right; exact ⟨rfl, by simp [hm]⟩
      · cases h
  · cases h; left; rfl

theorem poAppend_error (st : PState) (u : String) (e : ParseError)
    (hm : st.msgid_parts.isSome = true) :
    poAppend st u ≠ .error e := by
  unfold poAppend
  intro h
  split at h
  · cases h
  · split at h
    · cases h
    · simp_all

theorem poAppend_ok (st : PState) (u : String) (st' : PState)
    (h : poAppend st u = .ok st') :
    st'.line_first = st.line_first ∧
      st'.msgid_parts.isSome = st.msgid_parts.isSome ∧
      st'.msgstr_parts.isSome = st.msgstr_parts.isSome := by
  unfold poAppend at h
  split at h
  next hm =>
    cases h; simp_all
  · split at h
    next hm2 =>
      cases h; simp_all
    · cases h

theorem poLine_inv (i : Nat) (line : List Char) (st st' : PState)
    (hinv : st.inv) (h : poLine i line st = .ok st') : st'.inv := by
  unfold poLine at h
  split at h
  · cases h
  · split at h
    · cases h; exact hinv
    · split at h
      · cases h
      · cases hq1 : poStartMsgid i line st with
        | error e1 => rw [hq1] at h; cases h
        | ok p =>
          obtain ⟨st1, line1⟩ := p
          rw [hq1] at h
          dsimp only at h
          cases hq2 : poStartMsgstr i line1 st1 with
          | error e2 => rw [hq2] at h; cases h
          | ok p2 =>
            obtain ⟨st2, line2⟩ := p2
            rw [hq2] at h
            dsimp only at h
            cases hq3 : unescapeChars line2 with
            | error de => rw [hq3] at h; cases h
            | ok u =>
              rw [hq3] at h
              dsimp only at h
              have hinv1 : st1.inv := by
                rcases poStartMsgid_ok i line st st1 line1 hq1 with
                  ⟨rfl, -, -⟩ | ⟨h1, h2, h3⟩
                · exact hinv
                · exact ⟨by simp [PState.inv, h1, h2], by simp [PState.inv, h3]⟩
              have hinv2 : st2.inv := by
                rcases poStartMsgstr_ok i line1 st1 st2 line2 hq2 with
                  rfl | ⟨rfl, hm⟩
                · exact hinv1
                · exact ⟨by simpa using hinv1.1, by simpa using hm⟩
              obtain ⟨e1, e2, e3⟩ := poAppend_ok st2 u st' h
              refine ⟨?_, ?_⟩
              · rw [e1, e2]; exact hinv2.1
              · intro hx; rw [e3] at hx; rw [e2]; exact hinv2.2 hx

theorem poLine_error (i : Nat) (line : List Char) (st : PState) (e : ParseError)
    (hinv : st.inv) (h : poLine i line st = .error e) :
    e.hasLineNo = true ∨ e.isDecode = true := by
  unfold poLine at h
  split at h
  · cases h; left; rfl
  · split at h
    · cases h
    · split at h
      · cases h; left; rfl
      next hc =>
        cases hq1 : poStartMsgid i line st with
        | error e1 =>
          rw [hq1] at h
          cases h
          left; exact poStartMsgid_error i line st e hq1
        | ok p =>
          obtain ⟨st1, line1⟩ := p
          rw [hq1] at h
          dsimp only at h
          have key : st1.line_first.isSome = true ∧ st1.msgid_parts.isSome = true := by
            rcases poStartMsgid_ok i line st st1 line1 hq1 with
              ⟨hst, -, hns⟩ | ⟨h1, h2, -⟩
            · simp only [hns, Bool.not_false, Bool.and_true] at hc
              have hm : st.msgid_parts.isSome = true := by
                cases hmi : st.msgid_parts with
                | none => rw [hmi] at hc; simp at hc
                | some v => rfl
              rw [hst]
              exact ⟨hinv.1 ▸ hm, hm⟩
            · exact ⟨by simp [h1], by simp [h2]⟩
          cases hq2 : poStartMsgstr i line1 st1 with
          | error e2 =>
            rw [hq2] at h
            cases h
            left; exact poStartMsgstr_error i line1 st1 e key.1 hq2
          | ok p2 =>
            obtain ⟨st2, line2⟩ := p2
            rw [hq2] at h
            dsimp only at h
            cases hq3 : unescapeChars line2 with
            | error de =>
              rw [hq3] at h
              cases h
              right; rfl
            | ok u =>
              rw [hq3] at h
              dsimp only at h
              have hm2 : st2.msgid_parts.isSome = true := by
                rcases poStartMsgstr_ok i line1 st1 st2 line2 hq2 with hst2 | ⟨hst2, -⟩
                · rw [hst2]; exact key.2
                · rw [hst2]; simpa using key.2
              exact absurd h (poAppend_error st2 u e hm2)

theorem runLines_ok_inv (lines : List (List Char)) :
    ∀ (i : Nat) (st st' : PState),
      st.inv → runLines i st lines = .ok st' → st'.inv := by
  induction lines with
  | nil =>
    intro i st st' hinv h
    cases h; exact hinv
  | cons l ls ih =>
    intro i st st' hinv h
    unfold runLines at h
    cases hq : poLine i l st with
    | error e1 => rw [hq] at h; cases h
    | ok st1 =>
      rw [hq] at h
      exact ih (i + 1) st1 st' (poLine_inv i l st st1 hinv hq) h

theorem runLines_error (lines : List (List Char)) :
    ∀ (i : Nat) (st : PState) (e : ParseError),
      st.inv → runLines i st lines = .error e →
        e.hasLineNo = true ∨ e.isDecode = true := by
  induction lines with
  | nil => intro i st e hinv h; cases h
  | cons l ls ih =>
    intro i st e hinv h
    unfold runLines at h
    cases hq : poLine i l st with
    | error e1 =>
      rw [hq] at h
      cases h
      exact poLine_error i l st e hinv hq
    | ok st1 =>
      rw [hq] at h
      exact ih (i + 1) st1 e (poLine_inv i l st st1 hinv hq) h

theorem poEof_error (n : Nat) (st : PState) (e : ParseError)
    (h : poEof n st = .error e) :
    e.hasLineNo = true ∨ e = .assertLineFirstEof := by
  unfold poEof at h
  split at h
  · cases h; right; rfl
  · split at h
    · cases h; left; rfl
    · split at h
      · cases h
      · simp_all
      · cases h

/-- Claim C8 (parser state invariant): the initial parser state satisfies
the invariant — the translation accumulator is present only if the source
accumulator is present, and the recorded first-line number is present
exactly when the source accumulator is present — and every line-processing
step, and hence any run of the line loop, preserves it; no reachable
parser state violates it. -/
theorem claim_C8 :
    PState.init.inv ∧
    (∀ (i : Nat) (line : List Char) (st st' : PState),
      st.inv → poLine i line st = .ok st' → st'.inv) ∧
    (∀ (lines : List (List Char)) (i : Nat) (st st' : PState),
      st.inv → runLines i st lines = .ok st' → st'.inv) :=
  ⟨by decide, poLine_inv, fun lines i st st' => runLines_ok_inv lines i st st'⟩

theorem claim_C8_witness :
    PState.inv ⟨some 1, some ["a"], none, []⟩ :=
  claim_C8.2.1 0 (String.data ("msgid \"a\"")) PState.init
    ⟨some 1, some ["a"], none, []⟩ (by decide) (by decide)

/-- Claim C9 as amended: every fatal format error aborts the whole parse
with no entry list returned (the result is `Except.error`), and the error
either names the offending 1-based line number, or is an error propagated
from the escape decoder (whose messages carry no line number), or is the
end-of-input failure for an input in which no entry was ever opened (a
bare assertion carrying no line number). -/
theorem claim_C9_amended (raw_data : String) (e : ParseError)
    (h : parse_po_data raw_data = .error e) :
    e.hasLineNo = true ∨ e.isDecode = true ∨ e = .assertLineFirstEof := by
  unfold parse_po_data at h
  cases hq : runLines 0 PState.init (splitNl raw_data.data) with
  | error e1 =>
    rw [hq] at h
    cases h
    rcases runLines_error (splitNl raw_data.data) 0 PState.init e (by decide) hq with
      h1 | h2
    · left; exact h1
    · right; left; exact h2
  | ok st =>
    rw [hq] at h
    dsimp only at h
    rcases poEof_error (splitNl raw_data.data).length st e h with h1 | h2
    · left; exact h1
    · right; right; exact h2

theorem claim_C9_amended_witness :
    ParseError.hasLineNo .assertLineFirstEof = true ∨
      ParseError.isDecode .assertLineFirstEof = true ∨
      ParseError.assertLineFirstEof = .assertLineFirstEof :=
  claim_C9_amended ("") .assertLineFirstEof (by decide)

/-- Counterexample to claim C9 as stated: the empty input (an input
containing no source declaration at all) is malformed, and the parse fails
with the bare end-of-input assertion, whose report carries no line number
at all. -/
theorem claim_C9_counterexample :
    (parse_po_data ("") = .error .assertLineFirstEof ∧
      ParseError.hasLineNo .assertLineFirstEof = false) ∧
    (parse_po_data ("msgid \"a") = .error (.decode .notTerminated) ∧
      ParseError.hasLineNo (.decode .notTerminated) = false) := by
  decide
